import Mathlib

/-!
Shallow embedding of the `delete-pvc` repository's two programs:

* the CSI plugin directory watcher (`csiWatcher` with `start`, `init`, `stop`
  and the consumer loop over the fsnotify event stream), and
* the `delete-pvc` command-line script (`workloadOfPVC`, `deleteWorkload`).

Filesystem paths are modelled as lists of components (`filepath.Join`
appends a component, `filepath.Base` takes the last component; directory
entry names returned by `ioutil.ReadDir` contain no separator, so this is
exact for them).  Goroutine scheduling is abstracted by explicit inputs
(the time at which the wait-group counter drains, the winner of a select
race); what each piece of straight-line code does is translated directly.
-/

namespace DeletePvc

/-- The reserved directory name, `const ignoreDir = "kubernetes.io"`. -/
def ignoreDir : String := "kubernetes.io"

/-- `fsnotify.Create = 1 << 0`. -/
def createMask : Nat := 1

/-- `fsnotify.Write = 1 << 1`. -/
def writeMask : Nat := 2

/-- `fsnotify.Remove = 1 << 2`. -/
def removeMask : Nat := 4

/-- `fsnotify.Rename = 1 << 3`. -/
def renameMask : Nat := 8

/-- `fsnotify.Chmod = 1 << 4`. -/
def chmodMask : Nat := 16

/-- A raw fsnotify change record: `fsnotify.Event{Name, Op}`.
`name` is the path as a component list, `op` the kind bitmask. -/
structure Event where
  name : List String
  op : Nat
deriving DecidableEq, Repr

/-- `filepath.Base`: the last path component (Go returns "." for an
empty path). -/
def base (p : List String) : String := p.getLast?.getD "."

/-- `filepath.Join w.path name`: appends one component. -/
def join (p : List String) (n : String) : List String := p ++ [n]

/-- The dispatch-eligibility test of the consumer loop, literally
`event.Op&fsnotify.Create == fsnotify.Create || event.Op&fsnotify.Remove == fsnotify.Remove`. -/
def eligible (op : Nat) : Bool :=
  (op &&& createMask == createMask) || (op &&& removeMask == removeMask)

/-- The klog lines emitted by the event case of the consumer loop. -/
inductive LogEntry where
  | handleEvent
  | handleEventDriver (driverName : String)
  | ignoreEvent
deriving DecidableEq, Repr

/-- Observable outcome of one iteration of the consumer loop on an event.
`calls` are handler invocations run to completion inline, before the loop
reads the next record; `spawned` are handler invocations started as
separate concurrent tasks (a `go` statement) that the loop does not wait
for. -/
structure StepOut where
  calls : List String
  spawned : List String
  logs : List LogEntry
deriving DecidableEq, Repr

/-- The `case event := <-fsWatcher.Events` body of the consumer loop:
`w.wg.Add(1)` followed by an immediately invoked closure (there is no
`go` keyword in the source, so the closure — including the
`w.csiHandler(driverName)` call — runs synchronously and `spawned` is
always empty). -/
def eventStep (e : Event) : StepOut :=
  if eligible e.op then
    let driverName := base e.name
    if driverName != ignoreDir then
      { calls := [driverName], spawned := [],
        logs := [LogEntry.handleEvent, LogEntry.handleEventDriver driverName] }
    else
      { calls := [], spawned := [], logs := [LogEntry.handleEvent] }
  else
    { calls := [], spawned := [], logs := [LogEntry.ignoreEvent] }

/-- All handler invocations (inline or spawned) produced by the consumer
loop while it processes a sequence of events. -/
def handlerCalls (evs : List Event) : List String :=
  evs.flatMap fun e => (eventStep e).calls ++ (eventStep e).spawned

/-- One entry of the `ioutil.ReadDir` result, as used by `init`:
its name and whether it is a directory. -/
structure DirEntry where
  name : String
  isDir : Bool
deriving DecidableEq, Repr

/-- The qualification test of the `init` loop:
`file.IsDir() && file.Name() != ignoreDir`. -/
def initQualifies (f : DirEntry) : Bool :=
  f.isDir && f.name != ignoreDir

/-- The synthetic events injected by `init`: one
`fsnotify.Event{Name: filepath.Join(w.path, file.Name()), Op: fsnotify.Create}`
per qualifying entry. -/
def initEvents (path : List String) (files : List DirEntry) : List Event :=
  (files.filter initQualifies).map fun f => { name := join path f.name, op := createMask }

/-- State of a Go channel, distinguishing the never-made (nil) channel. -/
inductive ChanSt where
  | unmade
  | opened
  | closed
deriving DecidableEq, Repr

/-- Kinds of goroutines tracked by `w.wg`: the consumer loop and one
injection goroutine per initial-scan entry. -/
inductive TaskKind where
  | consumer
  | injection (name : String)
deriving DecidableEq, Repr

/-- A wait-group-tracked goroutine together with whether it has run its
deferred `w.wg.Done()`. -/
structure Task where
  kind : TaskKind
  done : Bool
deriving DecidableEq, Repr

/-- The state of a `csiWatcher` session that the claims observe:
stop channel, whether the fsnotify watcher handle is open, the tracked
goroutines, the synthetic events injected so far, and whether
`fsWatcher.Add(w.path)` has succeeded. -/
structure SessionSt where
  path : List String
  stopCh : ChanSt
  fsOpen : Bool
  tracked : List Task
  injected : List Event
  watchAttached : Bool
deriving DecidableEq, Repr

/-- `newCSIWatcher`: only `path` and the handler are set; `stopCh` is the
nil channel and no fsnotify watcher exists yet. -/
def newCSIWatcher (path : List String) : SessionSt :=
  { path := path, stopCh := ChanSt.unmade, fsOpen := false,
    tracked := [], injected := [], watchAttached := false }

/-- The injection goroutines started by `init` (`w.wg.Add(1); go func…`),
initially not done. -/
def initTasks (files : List DirEntry) : List Task :=
  (files.filter initQualifies).map fun f => { kind := TaskKind.injection f.name, done := false }

/-- `init`: `ioutil.ReadDir(w.path)`; on failure return the error, else
start one counted injection goroutine per qualifying entry. -/
def initModel (s : SessionSt) (listing : Except String (List DirEntry)) :
    Except String SessionSt :=
  match listing with
  | Except.error e => Except.error e
  | Except.ok files =>
      Except.ok { s with
        tracked := s.tracked ++ initTasks files,
        injected := s.injected ++ initEvents s.path files }

/-- The environment `start` runs against: the result of
`fsnotify.NewWatcher()`, of `ioutil.ReadDir`, and of `fsWatcher.Add`. -/
structure StartEnv where
  newWatcherErr : Option String
  listing : Except String (List DirEntry)
  addErr : Option String

/-- `start`, in source order: make `stopCh`; `fsnotify.NewWatcher()`
(failure returns a wrapped error); `w.wg.Add(1)` and the consumer
goroutine; `w.init()` (failure returns its error as-is, with the fsnotify
handle still open); `fsWatcher.Add(w.path)`. -/
def startModel (path : List String) (env : StartEnv) :
    Except String Unit × SessionSt :=
  let s0 := { newCSIWatcher path with stopCh := ChanSt.opened }
  match env.newWatcherErr with
  | some e => (Except.error ("failed to start plugin fsWatcher, err: " ++ e), s0)
  | none =>
      let s2 := { s0 with
        fsOpen := true,
        tracked := s0.tracked ++ [{ kind := TaskKind.consumer, done := false }] }
      match initModel s2 env.listing with
      | Except.error e => (Except.error e, s2)
      | Except.ok s3 =>
          match env.addErr with
          | some e => (Except.error e, s3)
          | none => (Except.ok (), { s3 with watchAttached := true })

/-- The fixed drain bound of `stop`: `11 * time.Second`. -/
def stopTimeoutSeconds : Nat := 11

/-- Result of a `stop` call. `panicked` models a Go runtime panic
(close of a nil or already-closed channel). -/
inductive StopRes where
  | ok
  | timeout
  | closeFail (e : String)
  | panicked
deriving DecidableEq, Repr

/-- The select race inside `stop` between the channel closed when
`w.wg.Wait()` returns and `time.After(11 * time.Second)`: the drain wins
when the wait-group counter reaches zero strictly before the bound;
`tie` resolves the (nondeterministic) select when both fire together. -/
def drainWins (drainTime : Option Nat) (tie : Bool) : Bool :=
  match drainTime with
  | some t => decide (t < stopTimeoutSeconds) || (decide (t = stopTimeoutSeconds) && tie)
  | none => false

/-- `stop`: `close(w.stopCh)` (panics if `stopCh` is nil or already
closed); then race `w.wg.Wait()` against `time.After(11 * time.Second)`.
`drainTime` is the instant (seconds after the call) at which the
wait-group counter reaches zero, `none` if it never does; `tie` resolves
the select race when the drain lands exactly on the bound.  If the drain
wins, every tracked goroutine has completed and `w.fsWatcher.Close()`
runs, whose result `closeErr` decides between nil and the close error;
if the timeout wins, `stop` returns the timeout error and the fsnotify
handle is left open. -/
def stopModel (s : SessionSt) (drainTime : Option Nat) (tie : Bool)
    (closeErr : Option String) : StopRes × SessionSt :=
  match s.stopCh with
  | ChanSt.unmade => (StopRes.panicked, s)
  | ChanSt.closed => (StopRes.panicked, s)
  | ChanSt.opened =>
      let s1 := { s with stopCh := ChanSt.closed }
      if drainWins drainTime tie then
        let s2 := { s1 with tracked := s1.tracked.map fun tk => { tk with done := true } }
        match closeErr with
        | some e => (StopRes.closeFail e, s2)
        | none => (StopRes.ok, { s2 with fsOpen := false })
      else
        (StopRes.timeout, s1)

/-! ### The `delete-pvc` command-line script (`main.go`) -/

/-- `metav1.OwnerReference`, restricted to the fields the script reads. -/
structure OwnerReference where
  kind : String
  name : String
deriving DecidableEq, Repr

/-- A pod volume: `claimName` is `some c` when
`volume.PersistentVolumeClaim` is non-nil with `ClaimName == c`. -/
structure Volume where
  claimName : Option String
deriving DecidableEq, Repr

/-- A pod, restricted to what `workloadOfPVC` reads: its volumes and the
result of `metav1.GetControllerOf(&pod)`. -/
structure Pod where
  volumes : List Volume
  controller : Option OwnerReference
deriving DecidableEq, Repr

/-- A ReplicaSet, restricted to the result of `metav1.GetControllerOf(rs)`. -/
structure ReplicaSet where
  controller : Option OwnerReference
deriving DecidableEq, Repr

/-- The inner-loop test of `workloadOfPVC`:
`volume.PersistentVolumeClaim != nil && volume.PersistentVolumeClaim.ClaimName == pvcName`
holds for some volume of the pod. -/
def podUsesPVC (pvcName : String) (p : Pod) : Bool :=
  p.volumes.any fun v => v.claimName == some pvcName

/-- The body run by `workloadOfPVC` for the first pod with a matching
volume: resolve the pod's controller, follow a ReplicaSet one level up
via `replicaSetClient.Get` (modelled by `rsGet`), and reject any other
kind.  The returned owner of the ReplicaSet branch is passed through
whatever its kind is. -/
def ownerOfMatchedPod (p : Pod) (rsGet : String → Except String ReplicaSet) :
    Except String (Option OwnerReference) :=
  match p.controller with
  | none => Except.error "pod ownerReference is nil"
  | some podOwner =>
      if podOwner.kind == "StatefulSet" then
        Except.ok (some podOwner)
      else if podOwner.kind == "ReplicaSet" then
        match rsGet podOwner.name with
        | Except.error e => Except.error e
        | Except.ok rs =>
            match rs.controller with
            | none => Except.error "rs ownerReference is nil"
            | some rsOwner => Except.ok (some rsOwner)
      else
        Except.error ("ownerReference kind: " ++ podOwner.kind)

/-- `workloadOfPVC`: scan the pod list; the first pod with a volume bound
to the claim decides the result; no matching pod yields `ok none`
("pvc not bound by workload"). -/
def workloadOfPVC (pvcName : String) (pods : List Pod)
    (rsGet : String → Except String ReplicaSet) :
    Except String (Option OwnerReference) :=
  match pods with
  | [] => Except.ok none
  | p :: rest =>
      if podUsesPVC pvcName p then ownerOfMatchedPod p rsGet
      else workloadOfPVC pvcName rest rsGet

/-- A deletion API call issued by `deleteWorkload`. -/
inductive ApiCall where
  | deleteStatefulSet (name : String)
  | deleteDeployment (name : String)
deriving DecidableEq, Repr

/-- `deleteWorkload`: switch on `owner.Kind`; StatefulSet and Deployment
issue the corresponding typed Delete call and return its result
(`none` meaning a nil error); any other kind issues no API call and
returns the `unkown workload` error.  `sfsDelete`/`depDelete` model the
two clients; the first component records the API calls issued. -/
def deleteWorkload (owner : OwnerReference)
    (sfsDelete depDelete : String → Option String) :
    List ApiCall × Option String :=
  if owner.kind == "StatefulSet" then
    ([ApiCall.deleteStatefulSet owner.name], sfsDelete owner.name)
  else if owner.kind == "Deployment" then
    ([ApiCall.deleteDeployment owner.name], depDelete owner.name)
  else
    ([], some ("unkown workload: " ++ owner.kind ++ " "))

/-! ### Helper lemmas -/

/-- The loop's eligibility test, as a proposition on the bitmask. -/
theorem eligible_iff (op : Nat) :
    eligible op = true ↔
      (op &&& createMask = createMask ∨ op &&& removeMask = removeMask) := by
  simp [eligible]

/-- `filepath.Base (filepath.Join p n) = n` in the component model. -/
theorem base_join (p : List String) (n : String) : base (join p n) = n := by
  simp [base, join, List.getLast?_concat]

/-- No iteration of the consumer loop ever produces a handler invocation
with the reserved name. -/
theorem eventStep_no_ignoreDir (e : Event) :
    ignoreDir ∉ (eventStep e).calls ++ (eventStep e).spawned := by
  unfold eventStep
  by_cases he : eligible e.op
  · by_cases hn : base e.name != ignoreDir
    · simp only [he, if_true, hn, if_true, List.append_nil, List.mem_singleton]
      exact fun h => bne_iff_ne.mp hn h.symm
    · simp [he, hn]
  · simp [he]

/-- Processing the synthetic initial-scan events produces exactly the
qualifying entry names, in order. -/
theorem handlerCalls_initEvents (path : List String) (files : List DirEntry) :
    handlerCalls (initEvents path files) =
      (files.filter initQualifies).map (fun f => f.name) := by
  induction files with
  | nil => rfl
  | cons f rest ih =>
      by_cases hq : initQualifies f
      · have hname : f.name != ignoreDir := by
          have := hq
          unfold initQualifies at this
          exact (Bool.and_eq_true _ _).mp this |>.2
        simp only [initEvents, List.filter_cons, hq, if_true, List.map_cons] at ih ⊢
        simp only [handlerCalls, List.flatMap_cons] at ih ⊢
        rw [ih]
        simp only [eventStep, eligible, base_join]
        norm_num [hname]
      · simp only [initEvents, List.filter_cons, hq, if_false] at ih ⊢
        exact ih

/-! ### Claim theorems -/

/-- C1: the spec claims each handler invocation runs as independent
concurrent work, fire-and-forget relative to the consumer loop.  In the
source the closure wrapping `w.csiHandler(driverName)` is invoked without
a `go` statement, so at this Create record (and at this Remove record)
the handler invocation completes inline (`calls`) before the loop reads
the next record, and no concurrent task is spawned (`spawned = []`):
the loop waits for the handler. -/
theorem c1_dispatch_is_synchronous :
    eventStep { name := ["var", "lib", "kubelet", "plugins", "A"], op := createMask } =
      { calls := ["A"], spawned := [],
        logs := [LogEntry.handleEvent, LogEntry.handleEventDriver "A"] } ∧
    eventStep { name := ["var", "lib", "kubelet", "plugins", "B"], op := removeMask } =
      { calls := ["B"], spawned := [],
        logs := [LogEntry.handleEvent, LogEntry.handleEventDriver "B"] } := by
  exact ⟨rfl, rfl⟩

/-- C2: the spec claims `stop` before `start`, or a double `stop`, never
panics and returns an error.  In the source `stop` begins with
`close(w.stopCh)`: before `start` the channel is nil and after a first
`stop` it is already closed, and Go panics on closing either, so both
calls panic instead of returning an error. -/
theorem c2_stop_panics :
    (stopModel (newCSIWatcher ["plugins"]) none false none).1 = StopRes.panicked ∧
    (stopModel
      (stopModel
        (startModel ["plugins"]
          { newWatcherErr := none, listing := Except.ok [], addErr := none }).2
        (some 0) false none).2
      none false none).1 = StopRes.panicked := by
  exact ⟨rfl, rfl⟩

/-- C3 counterexample: with the directory listing failing, `start` does
propagate the error and injects nothing, but the fsnotify handle created
by `start` is NOT released before the error is propagated — `fsOpen` is
still `true`, refuting the claim's release clause. -/
theorem c3_counterexample :
    (startModel ["plugins"]
      { newWatcherErr := none, listing := Except.error "permission denied",
        addErr := none }).1 = Except.error "permission denied" ∧
    (startModel ["plugins"]
      { newWatcherErr := none, listing := Except.error "permission denied",
        addErr := none }).2.injected = [] ∧
    ¬ (startModel ["plugins"]
      { newWatcherErr := none, listing := Except.error "permission denied",
        addErr := none }).2.fsOpen = false := by
  refine ⟨rfl, rfl, ?_⟩
  decide

/-- C3 as amended: if the initial directory listing inside `start` fails,
`start` propagates the I/O error unchanged and no synthetic event is
injected, but the NotificationSource handle created by `start` is not
released — it remains open when the error is propagated. -/
theorem c3_listing_failure (path : List String) (msg : String) (env : StartEnv)
    (h1 : env.newWatcherErr = none) (h2 : env.listing = Except.error msg) :
    (startModel path env).1 = Except.error msg ∧
    (startModel path env).2.injected = [] ∧
    (startModel path env).2.fsOpen = true := by
  simp [startModel, initModel, h1, h2, newCSIWatcher]

/-- Witness for `c3_listing_failure` at a concrete environment. -/
theorem c3_listing_failure_witness :
    (startModel ["p"]
      { newWatcherErr := none, listing := Except.error "eacces",
        addErr := none }).1 = Except.error "eacces" ∧
    (startModel ["p"]
      { newWatcherErr := none, listing := Except.error "eacces",
        addErr := none }).2.injected = [] ∧
    (startModel ["p"]
      { newWatcherErr := none, listing := Except.error "eacces",
        addErr := none }).2.fsOpen = true := by
  exact c3_listing_failure ["p"] "eacces" _ rfl rfl

/-- C4: for every subdirectory present at `start` time whose name is not
the reserved name, processing the synthetic initial-scan events invokes
the handler exactly once with that directory's leaf name (the listing's
entry names are distinct, as `ioutil.ReadDir` guarantees). -/
theorem c4_initial_scan_exactly_once (path : List String) (files : List DirEntry)
    (hnodup : (files.map (fun f => f.name)).Nodup)
    (f : DirEntry) (hf : f ∈ files) (hdir : f.isDir = true)
    (hname : f.name ≠ ignoreDir) :
    (handlerCalls (initEvents path files)).count f.name = 1 := by
  rw [handlerCalls_initEvents]
  have hsub : ((files.filter initQualifies).map (fun f => f.name)).Sublist
      (files.map (fun f => f.name)) :=
    (List.filter_sublist files).map _
  have hnd : ((files.filter initQualifies).map (fun f => f.name)).Nodup :=
    hnodup.sublist hsub
  have hmem : f.name ∈ (files.filter initQualifies).map (fun f => f.name) := by
    refine List.mem_map.mpr ⟨f, List.mem_filter.mpr ⟨hf, ?_⟩, rfl⟩
    simp [initQualifies, hdir, hname]
  exact List.count_eq_one_of_mem hnd hmem

/-- Witness for `c4_initial_scan_exactly_once`: a scan of `A`, `B` and
the reserved directory dispatches exactly once for `A`. -/
theorem c4_initial_scan_exactly_once_witness :
    (handlerCalls (initEvents ["plugins"]
      [{ name := "A", isDir := true }, { name := "B", isDir := true },
       { name := "kubernetes.io", isDir := true }])).count "A" = 1 := by
  exact c4_initial_scan_exactly_once ["plugins"]
    [{ name := "A", isDir := true }, { name := "B", isDir := true },
     { name := "kubernetes.io", isDir := true }]
    (by decide) { name := "A", isDir := true } (by decide) rfl (by decide)

/-- C5: a raw record is dispatch-eligible exactly when its bitmask
matches the Create flag or the Remove flag (so a bitwise union matches
either flag and passes), and records of any other kind produce no
handler invocation at all and only the `Ignore event` log line. -/
theorem c5_kind_filter (e : Event) :
    ((eventStep e).calls ≠ [] →
      (e.op &&& createMask = createMask ∨ e.op &&& removeMask = removeMask)) ∧
    ((e.op &&& createMask = createMask ∨ e.op &&& removeMask = removeMask) →
      base e.name ≠ ignoreDir → (eventStep e).calls = [base e.name]) ∧
    (¬ (e.op &&& createMask = createMask ∨ e.op &&& removeMask = removeMask) →
      (eventStep e).calls = [] ∧ (eventStep e).spawned = [] ∧
      (eventStep e).logs = [LogEntry.ignoreEvent]) := by
  by_cases helig : eligible e.op = true
  · have hprop := (eligible_iff e.op).mp helig
    refine ⟨fun _ => hprop, fun _ hbase => ?_, fun hc => absurd hprop hc⟩
    have hb : (base e.name != ignoreDir) = true := bne_iff_ne.mpr hbase
    simp [eventStep, helig, hb]
  · have hprop : ¬ (e.op &&& createMask = createMask ∨ e.op &&& removeMask = removeMask) :=
      fun h => helig ((eligible_iff e.op).mpr h)
    refine ⟨fun hne => ?_, fun h _ => absurd h hprop, fun _ => ?_⟩
    · exact absurd (by simp [eventStep, helig]) hne
    · simp [eventStep, helig]

/-- Witness for `c5_kind_filter`: a record whose bitmask is the union
`Create|Remove` passes the filter and reaches the handler. -/
theorem c5_kind_filter_witness :
    (eventStep { name := ["plugins", "C"], op := createMask ||| removeMask }).calls = ["C"] := by
  have h := (c5_kind_filter { name := ["plugins", "C"], op := createMask ||| removeMask }).2.1
    (by decide) (by decide)
  simpa using h

/-- C6: the reserved name is never dispatched at either stage — the
initial scan injects no event whose leaf is the reserved name, the
consumer loop drops any event whose leaf is the reserved name, and no
sequence of raw events whatsoever can make the handler run with the
reserved name. -/
theorem c6_reserved_never_dispatched :
    (∀ (path : List String) (files : List DirEntry),
      ∀ e ∈ initEvents path files, base e.name ≠ ignoreDir) ∧
    (∀ e : Event, base e.name = ignoreDir →
      (eventStep e).calls = [] ∧ (eventStep e).spawned = []) ∧
    (∀ evs : List Event, ignoreDir ∉ handlerCalls evs) := by
  refine ⟨?_, ?_, ?_⟩
  · intro path files e he
    simp only [initEvents, List.mem_map] at he
    obtain ⟨f, hf, rfl⟩ := he
    rw [base_join]
    have hq := (List.mem_filter.mp hf).2
    have := (Bool.and_eq_true _ _).mp hq |>.2
    exact bne_iff_ne.mp this
  · intro e hb
    by_cases helig : eligible e.op = true
    · simp [eventStep, helig, hb]
    · simp [eventStep, helig]
  · intro evs
    induction evs with
    | nil => simp [handlerCalls]
    | cons e rest ih =>
        simp only [handlerCalls, List.flatMap_cons, List.mem_append] at ih ⊢
        rintro (h | h)
        · exact eventStep_no_ignoreDir e (List.mem_append.mpr h)
        · exact ih h

/-- Witness for `c6_reserved_never_dispatched`: a live Create event and
a live Remove event on the reserved directory dispatch nothing. -/
theorem c6_reserved_never_dispatched_witness :
    ignoreDir ∉ handlerCalls
      [{ name := ["plugins", "kubernetes.io"], op := createMask },
       { name := ["plugins", "kubernetes.io"], op := removeMask }] := by
  exact c6_reserved_never_dispatched.2.2 _

/-- C7: if `stop` is called on a started session and the in-flight
counter drains within the 11-second bound, then by the time `stop`
returns every tracked task has completed, the fsnotify handle is closed
and `stop` returns nil when the close succeeds, or the close's own error
when it fails. -/
theorem c7_stop_drains_then_closes (s : SessionSt) (t : Nat) (tie : Bool)
    (closeErr : Option String)
    (hopen : s.stopCh = ChanSt.opened) (ht : t < stopTimeoutSeconds) :
    (∀ tk ∈ (stopModel s (some t) tie closeErr).2.tracked, tk.done = true) ∧
    (closeErr = none →
      (stopModel s (some t) tie closeErr).1 = StopRes.ok ∧
      (stopModel s (some t) tie closeErr).2.fsOpen = false) ∧
    (∀ msg, closeErr = some msg →
      (stopModel s (some t) tie closeErr).1 = StopRes.closeFail msg) := by
  have hdw : drainWins (some t) tie = true := by simp [drainWins, ht]
  refine ⟨?_, ?_, ?_⟩
  · intro tk htk
    rcases closeErr with _ | msg <;>
      simp only [stopModel, hopen, hdw, if_true, List.mem_map] at htk <;>
        obtain ⟨tk0, _, rfl⟩ := htk <;> rfl
  · intro hce
    subst hce
    simp [stopModel, hopen, hdw]
  · intro msg hce
    subst hce
    simp [stopModel, hopen, hdw]

/-- Witness for `c7_stop_drains_then_closes`: a started session whose
counter drains after one second is stopped cleanly and released. -/
theorem c7_stop_drains_then_closes_witness :
    (stopModel
      { path := ["plugins"], stopCh := ChanSt.opened, fsOpen := true,
        tracked := [{ kind := TaskKind.consumer, done := false }],
        injected := [], watchAttached := true }
      (some 1) false none).1 = StopRes.ok ∧
    (stopModel
      { path := ["plugins"], stopCh := ChanSt.opened, fsOpen := true,
        tracked := [{ kind := TaskKind.consumer, done := false }],
        injected := [], watchAttached := true }
      (some 1) false none).2.fsOpen = false := by
  exact (c7_stop_drains_then_closes
    { path := ["plugins"], stopCh := ChanSt.opened, fsOpen := true,
      tracked := [{ kind := TaskKind.consumer, done := false }],
      injected := [], watchAttached := true }
    1 false none rfl (by decide)).2.1 rfl

/-- C8: if the in-flight counter has not reached zero when the fixed
11-second timeout elapses, `stop` returns the timeout error and does not
close the fsnotify handle: the resource stays held. -/
theorem c8_stop_timeout (s : SessionSt) (dt : Option Nat) (tie : Bool)
    (closeErr : Option String)
    (hopen : s.stopCh = ChanSt.opened) (hfs : s.fsOpen = true)
    (hlate : ∀ t, dt = some t → stopTimeoutSeconds < t) :
    (stopModel s dt tie closeErr).1 = StopRes.timeout ∧
    (stopModel s dt tie closeErr).2.fsOpen = true := by
  have hdw : drainWins dt tie = false := by
    rcases dt with _ | t
    · rfl
    · have h11 := hlate t rfl
      simp [drainWins, Nat.lt_asymm h11, Nat.ne_of_gt h11]
  simp [stopModel, hopen, hdw, hfs]

/-- Witness for `c8_stop_timeout`: a session whose counter never drains
times out with the handle still open. -/
theorem c8_stop_timeout_witness :
    (stopModel
      { path := ["plugins"], stopCh := ChanSt.opened, fsOpen := true,
        tracked := [{ kind := TaskKind.injection "A", done := false }],
        injected := [], watchAttached := true }
      none false none).1 = StopRes.timeout ∧
    (stopModel
      { path := ["plugins"], stopCh := ChanSt.opened, fsOpen := true,
        tracked := [{ kind := TaskKind.injection "A", done := false }],
        injected := [], watchAttached := true }
      none false none).2.fsOpen = true := by
  exact c8_stop_timeout
    { path := ["plugins"], stopCh := ChanSt.opened, fsOpen := true,
      tracked := [{ kind := TaskKind.injection "A", done := false }],
      injected := [], watchAttached := true }
    none false none rfl rfl (fun t h => nomatch h)

/-- C9: `start` counts the consumer-loop goroutine itself in the
wait group (`w.wg.Add(1)` right before `go func…`, `defer w.wg.Done()`
on exit), so it is among the tracked tasks of every wired session; and
whenever `stop` returns nil, every tracked task — the consumer loop
included — has completed, and only then is the fsnotify handle closed. -/
theorem c9_consumer_loop_counted :
    (∀ (path : List String) (env : StartEnv), env.newWatcherErr = none →
      ({ kind := TaskKind.consumer, done := false } : Task) ∈
        (startModel path env).2.tracked) ∧
    (∀ (s : SessionSt) (dt : Option Nat) (tie : Bool) (ce : Option String),
      (stopModel s dt tie ce).1 = StopRes.ok →
      (∀ tk ∈ (stopModel s dt tie ce).2.tracked, tk.done = true) ∧
      (stopModel s dt tie ce).2.fsOpen = false) := by
  constructor
  · intro path env h
    rcases hl : env.listing with e | files <;>
      rcases ha : env.addErr with _ | a <;>
        simp [startModel, initModel, h, hl, ha, newCSIWatcher]
  · intro s dt tie ce hok
    rcases hsc : s.stopCh with _ | _ | _
    · simp [stopModel, hsc] at hok
    · rcases hdw : drainWins dt tie with _ | _
      · simp [stopModel, hsc, hdw] at hok
      · rcases hce : ce with _ | e
        · refine ⟨?_, by simp [stopModel, hsc, hdw, hce]⟩
          intro tk htk
          simp only [stopModel, hsc, hdw, hce, if_true, List.mem_map] at htk
          obtain ⟨tk0, _, rfl⟩ := htk
          rfl
        · simp [stopModel, hsc, hdw, hce] at hok
    · simp [stopModel, hsc] at hok

/-- Witness for `c9_consumer_loop_counted`: the consumer task is tracked
after a successful `start`. -/
theorem c9_consumer_loop_counted_witness :
    ({ kind := TaskKind.consumer, done := false } : Task) ∈
      (startModel ["plugins"]
        { newWatcherErr := none, listing := Except.ok [], addErr := none }).2.tracked := by
  exact c9_consumer_loop_counted.1 ["plugins"]
    { newWatcherErr := none, listing := Except.ok [], addErr := none } rfl

/-- C10: `deleteWorkload` issues a deletion API call exactly when the
owner's kind is `StatefulSet` or `Deployment`; for any other kind it
issues no call and returns the `unkown workload` error naming that kind —
even though `workloadOfPVC`'s ReplicaSet branch can hand it an owner of
arbitrary kind. -/
theorem c10_deleteWorkload_kind_guard :
    (∀ (owner : OwnerReference) (sfsDelete depDelete : String → Option String),
      ((deleteWorkload owner sfsDelete depDelete).1 ≠ [] ↔
        owner.kind = "StatefulSet" ∨ owner.kind = "Deployment") ∧
      (owner.kind ≠ "StatefulSet" → owner.kind ≠ "Deployment" →
        (deleteWorkload owner sfsDelete depDelete).1 = [] ∧
        (deleteWorkload owner sfsDelete depDelete).2 =
          some ("unkown workload: " ++ owner.kind ++ " "))) ∧
    (∀ kind name rsName : String,
      workloadOfPVC "claim"
        [{ volumes := [{ claimName := some "claim" }],
           controller := some { kind := "ReplicaSet", name := rsName } }]
        (fun _ => Except.ok { controller := some { kind := kind, name := name } }) =
      Except.ok (some { kind := kind, name := name })) := by
  constructor
  · intro owner sfsDelete depDelete
    by_cases h1 : owner.kind = "StatefulSet"
    · simp [deleteWorkload, h1]
    · by_cases h2 : owner.kind = "Deployment"
      · simp [deleteWorkload, h1, h2]
      · simp [deleteWorkload, h1, h2]
  · intro kind name rsName
    simp [workloadOfPVC, podUsesPVC, ownerOfMatchedPod]

/-- Witness for `c10_deleteWorkload_kind_guard`: a `DaemonSet` owner (as
the ReplicaSet branch of `workloadOfPVC` can produce) triggers no API
call and the error names the kind. -/
theorem c10_deleteWorkload_kind_guard_witness :
    (deleteWorkload { kind := "DaemonSet", name := "w" }
      (fun _ => none) (fun _ => none)).1 = [] ∧
    (deleteWorkload { kind := "DaemonSet", name := "w" }
      (fun _ => none) (fun _ => none)).2 =
      some ("unkown workload: " ++ "DaemonSet" ++ " ") := by
  exact (c10_deleteWorkload_kind_guard.1 { kind := "DaemonSet", name := "w" }
    (fun _ => none) (fun _ => none)).2 (by decide) (by decide)

end DeletePvc
